import Mathlib

/-!
Verification development for the llm-council multi-turn deliberation core.

The backend functions (`build_conversation_history`, `format_history_summary`,
`chat_with_chairman`, `send_message`, `send_message_stream`,
`add_chairman_message`) are embedded from the code listings in
src/sdd/TASKS.md; the surrounding storage behaviour follows the same file's
Task 7 pattern.  Parts of the repository that are not under src/ (the rank
aggregation body, the cancellation commit, the chairman model constant) are
modelled from the spec and marked as such in their doc comments.
-/

/-- A model reply dict with "model" and "response" keys, as used for stage3
results and chairman responses. -/
structure ModelResponse where
  model : String
  response : String
deriving DecidableEq

/-- One entry of the linear chat history sent to models: role
("user" / "assistant") plus flattened text content. -/
structure HistoryEntry where
  role : String
  content : String
deriving DecidableEq

/-- A message as stored in a conversation: a JSON object whose optional fields
act as the discriminator (stage1/stage2/stage3 present together for council
messages, chairman_response for chairman-only messages, cancelled for cancelled
turns).  An absent key is `none` / `false`. -/
structure StoredMsg where
  role : String
  content : String := ""
  stage1 : Option (List ModelResponse) := none
  stage2 : Option (List ModelResponse) := none
  stage3 : Option ModelResponse := none
  chairman_response : Option ModelResponse := none
  cancelled : Bool := false
deriving DecidableEq

/-- backend/main.py `build_conversation_history` (src/sdd/TASKS.md lines
323-334): convert stored messages to OpenRouter chat format.  The Python
for-loop appending to `history` is embedded as structural recursion;
`msg.get("stage3")` truthiness is `Option` matching (a stored stage3 dict
always carries its keys, hence is truthy). -/
def build_conversation_history : List StoredMsg → List HistoryEntry
  | [] => []
  | msg :: rest =>
    let tail := build_conversation_history rest
    if msg.role = "user" then
      { role := "user", content := msg.content } :: tail
    else if msg.role = "assistant" then
      match msg.stage3 with
      | some s => { role := "assistant", content := s.response } :: tail
      | none =>
        match msg.chairman_response with
        | some c => { role := "assistant", content := c.response } :: tail
        | none => tail
    else tail

/-- Python negative slice `l[-k:]`: the last `k` elements for `k > 0`, and the
whole list for `k = 0` (since `l[-0:] = l[0:]`). -/
def pySliceLast {α : Type} (l : List α) (k : Nat) : List α :=
  if k = 0 then l else l.drop (l.length - k)

/-- The newline separator joining the summary lines. -/
def newline : String := "\n"

/-- backend/council.py `format_history_summary` (src/sdd/TASKS.md lines 45-53):
render the last `max_turns * 2` history messages as "Role: content" lines,
truncating content over 500 characters to its first 500 plus "...". -/
def format_history_summary (history : List HistoryEntry) (max_turns : Nat := 3) : String :=
  let recent := pySliceLast history (max_turns * 2)
  let lines := recent.map (fun msg =>
    let role := if msg.role = "user" then "User" else "Assistant"
    let content := if msg.content.length > 500
      then msg.content.take 500 ++ "..."
      else msg.content
    role ++ ": " ++ content)
  String.intercalate newline lines

/-- The per-message rendering as §4.6 of the spec words it: role plus content,
with content longer than the 500-character cap replaced by its first 500
characters followed by an ellipsis marker. -/
def renderEntrySpec (msg : HistoryEntry) : String :=
  let role := if msg.role = "user" then "User" else "Assistant"
  if msg.content.length > 500
    then role ++ ": " ++ (msg.content.take 500 ++ "...")
    else role ++ ": " ++ msg.content

/-- The most recent 6 messages (3 user+assistant turns), per §4.6. -/
def lastSixSpec (history : List HistoryEntry) : List HistoryEntry :=
  history.drop (history.length - 6)

/-- The history summary as the spec describes it: the last 6 messages rendered
and joined by newlines. -/
def historySummarySpec (history : List HistoryEntry) : String :=
  String.intercalate newline ((lastSixSpec history).map renderEntrySpec)

/-- Python `x or default` on an optional string: `None` and `""` are falsy. -/
def pyOr (m : Option String) (d : String) : String :=
  match m with
  | none => d
  | some s => if s = "" then d else s

/-- The MessageRequest body of both message endpoints: content plus optional
mode (absent mode is JSON null = `none`). -/
structure SendRequest where
  content : String
  mode : Option String := none
deriving DecidableEq

/-- Mode selection of the non-streaming endpoint `send_message`
(src/sdd/TASKS.md lines 370-371): `"council" if is_first_message else
(request.mode or "chairman")`, where `is_first_message` counts the messages
stored before this turn's user message. -/
def sendMessageMode (priorMessages : List StoredMsg) (request : SendRequest) : String :=
  if priorMessages.length = 0 then "council" else pyOr request.mode "chairman"

/-- Mode selection of the streaming endpoint `send_message_stream`
(src/sdd/TASKS.md lines 437-438), transcribed from that code site. -/
def sendMessageStreamMode (priorMessages : List StoredMsg) (request : SendRequest) : String :=
  if priorMessages.length = 0 then "council" else pyOr request.mode "chairman"

/-- The history argument the endpoints pass to the council pipeline
(src/sdd/TASKS.md line 376: `history if not is_first_message else None`). -/
def councilHistoryArg (priorMessages : List StoredMsg) : Option (List HistoryEntry) :=
  if priorMessages.length = 0 then none
  else some (build_conversation_history priorMessages)

/-- Modelled from the spec: the configured chairman model identifier
(backend/config.py is not under src/; only the constant's uses are). -/
def CHAIRMAN_MODEL : String := "chairman-model"

/-- backend/council.py `chat_with_chairman` (src/sdd/TASKS.md lines 77-94).
The Gateway outcome of `query_model` is passed in as `gateway`, a function from
the sent message list to an optional response text (`none` models the call
returning None on failure). -/
def chat_with_chairman (user_query : String)
    (conversation_history : List HistoryEntry)
    (gateway : List HistoryEntry → Option String) : ModelResponse :=
  let messages := conversation_history ++ [{ role := "user", content := user_query }]
  match gateway messages with
  | some content => { model := CHAIRMAN_MODEL, response := content }
  | none => { model := CHAIRMAN_MODEL, response := "Failed to get response" }

/-- A conversation as stored: its messages plus optional title. -/
structure Conversation where
  messages : List StoredMsg
  title : Option String := none
deriving DecidableEq

/-- Storage state: conversation id → conversation, as an association list
(the data/conversations JSON files). -/
abbrev Store := List (String × Conversation)

/-- backend/storage.py `get_conversation`: `none` models the function returning
None for a missing conversation.  JSON-file storage hands back a fresh snapshot
on every call (value semantics), so a held conversation dict is unaffected by
later storage writes. -/
def get_conversation (store : Store) (conversation_id : String) : Option Conversation :=
  (store.find? (fun p => p.1 == conversation_id)).map Prod.snd

/-- backend/storage.py `save_conversation`: write the updated conversation back
under its id. -/
def save_conversation (store : Store) (conversation_id : String) (c : Conversation) : Store :=
  store.map (fun p => if p.1 = conversation_id then (p.1, c) else p)

/-- backend/storage.py `add_user_message`: the function body is not under src/;
modelled on the Task 7 pattern (src/sdd/TASKS.md lines 284-295, noted there as
"consistent with other functions"): look up, ValueError (= `none`) when
missing, append the user message, save. -/
def add_user_message (store : Store) (conversation_id : String) (content : String) :
    Option Store :=
  match get_conversation store conversation_id with
  | none => none
  | some conversation =>
    some (save_conversation store conversation_id
      { conversation with
        messages := conversation.messages ++ [{ role := "user", content := content }] })

/-- backend/storage.py `add_assistant_message`: same Task 7 pattern; stores the
three stage results together as one assistant message. -/
def add_assistant_message (store : Store) (conversation_id : String)
    (stage1 stage2 : List ModelResponse) (stage3 : ModelResponse) : Option Store :=
  match get_conversation store conversation_id with
  | none => none
  | some conversation =>
    some (save_conversation store conversation_id
      { conversation with
        messages := conversation.messages ++
          [{ role := "assistant", stage1 := some stage1, stage2 := some stage2,
             stage3 := some stage3 }] })

/-- backend/storage.py `add_chairman_message` (src/sdd/TASKS.md lines 284-295):
`none` models the ValueError raised for a missing conversation. -/
def add_chairman_message (store : Store) (conversation_id : String)
    (chairman_response : ModelResponse) : Option Store :=
  match get_conversation store conversation_id with
  | none => none
  | some conversation =>
    some (save_conversation store conversation_id
      { conversation with
        messages := conversation.messages ++
          [{ role := "assistant", chairman_response := some chairman_response }] })

/-- backend/storage.py `update_conversation_title` (not under src/; modelled on
the same pattern): set the conversation's title. -/
def update_conversation_title (store : Store) (conversation_id : String) (title : String) :
    Store :=
  match get_conversation store conversation_id with
  | none => store
  | some conversation =>
    save_conversation store conversation_id { conversation with title := some title }

/-- The stage outputs of `run_full_council` (src/sdd/TASKS.md lines 240-261)
for one turn, abstracted over the Gateway calls. -/
structure CouncilOutcome where
  stage1 : List ModelResponse
  stage2 : List ModelResponse
  stage3 : ModelResponse
  label_to_model : List (String × String)
  aggregate : List (String × Nat)
deriving DecidableEq

/-- The remote-call outcomes of one turn: the council pipeline result as a
function of the history argument the endpoint passes, the chairman Gateway
reply as a function of the sent messages (`none` = failure), and the generated
title. -/
structure TurnOracle where
  council : Option (List HistoryEntry) → CouncilOutcome
  chairmanGateway : List HistoryEntry → Option String
  title : String

/-- The failure outcomes of the non-streaming endpoint: the HTTP 404 for a
missing conversation, and a propagated internal exception. -/
inductive SendError where
  | notFound
  | internal
deriving DecidableEq

/-- The response body of the non-streaming endpoint, per mode. -/
inductive SendResult where
  | councilResult (stage1 stage2 : List ModelResponse) (stage3 : ModelResponse)
      (label_to_model : List (String × String)) (aggregate : List (String × Nat))
  | chairmanResult (chairman_response : ModelResponse)
deriving DecidableEq

/-- backend/main.py `send_message` (src/sdd/TASKS.md lines 358-402): validate
the conversation, append the user message, build history from the pre-append
snapshot, select the mode, run the selected pipeline, store the assistant
message, and (on a first council turn) set the title.  Returns the HTTP outcome
together with the storage state after the call (unchanged when the turn fails
before any write). -/
def send_message (store : Store) (conversation_id : String) (request : SendRequest)
    (oracle : TurnOracle) : Except SendError SendResult × Store :=
  match get_conversation store conversation_id with
  | none => (Except.error SendError.notFound, store)
  | some conversation =>
    match add_user_message store conversation_id request.content with
    | none => (Except.error SendError.internal, store)
    | some store₁ =>
      let history := build_conversation_history conversation.messages
      let is_first_message := conversation.messages.length = 0
      let mode := if is_first_message then "council" else pyOr request.mode "chairman"
      if mode = "council" then
        let out := oracle.council (if is_first_message then none else some history)
        match add_assistant_message store₁ conversation_id out.stage1 out.stage2 out.stage3 with
        | none => (Except.error SendError.internal, store₁)
        | some store₂ =>
          let store₃ := if is_first_message
            then update_conversation_title store₂ conversation_id oracle.title
            else store₂
          (Except.ok (SendResult.councilResult out.stage1 out.stage2 out.stage3
            out.label_to_model out.aggregate), store₃)
      else
        let result := chat_with_chairman request.content history oracle.chairmanGateway
        match add_chairman_message store₁ conversation_id result with
        | none => (Except.error SendError.internal, store₁)
        | some store₂ => (Except.ok (SendResult.chairmanResult result), store₂)

/-- Modelled from the spec: §4.3 step 4's points assignment inside
`calculate_aggregate_rankings` (backend/council.py's body is not under src/;
only its call site in run_full_council is).  The label at position p of a
submission over n labels earns n − p points (position 0 = best). -/
def submissionPoints (n : Nat) (sub : List String) (lab : String) : Nat :=
  if lab ∈ sub then n - sub.indexOf lab else 0

/-- Modelled from the spec: a label's total score is the sum of its points
across the given submissions (§4.3 step 4). -/
def aggregateScore (n : Nat) (submissions : List (List String)) (lab : String) : Nat :=
  (submissions.map (fun sub => submissionPoints n sub lab)).sum

/-- Modelled from the spec: a valid RankingSubmission is a permutation of the
presented labels (§3); malformed submissions are dropped before aggregation
(§4.3 step 3). -/
def validSubmissions (labels : List String) (submissions : List (List String)) :
    List (List String) :=
  submissions.filter (fun sub => sub.isPerm labels)

/-- The per-label score table, in Stage 1 presentation order. -/
def scoreTable (labels : List String) (submissions : List (List String)) :
    List (String × Nat) :=
  labels.map (fun lab =>
    (lab, aggregateScore labels.length (validSubmissions labels submissions) lab))

/-- The scores n, n-1, ..., 1, 0 in descending order. -/
def descScores : Nat → List Nat
  | 0 => [0]
  | n + 1 => (n + 1) :: descScores n

/-- Concatenate the score buckets: for each listed score, the table rows with
that score, in table (= Stage 1) order. -/
def bucketed (scored : List (String × Nat)) : List Nat → List (String × Nat)
  | [] => []
  | s :: ss => scored.filter (fun p => p.2 == s) ++ bucketed scored ss

/-- The largest score in the table. -/
def maxScore (scored : List (String × Nat)) : Nat :=
  (scored.map Prod.snd).foldr max 0

/-- Modelled from the spec: `calculate_aggregate_rankings` per §4.3 step 4 —
sort the labels by total score descending with ties broken by Stage 1
presentation order (stable, deterministic): emitted as descending score
buckets, each bucket keeping the score table's order. -/
def calculate_aggregate_rankings (labels : List String)
    (submissions : List (List String)) : List (String × Nat) :=
  let scored := scoreTable labels submissions
  bucketed scored (descScores (maxScore scored))

/-- The SSE event types emitted by `send_message_stream`
(src/sdd/TASKS.md lines 424-462) and consumed by the frontend handler
(src/frontend/src/App.jsx lines 152-250). -/
inductive SEvent where
  | stage1_start
  | stage1_complete
  | stage2_start
  | stage2_complete
  | stage3_start
  | stage3_complete
  | title_complete
  | chairman_start
  | chairman_complete
  | complete
  | error
deriving DecidableEq

/-- Council-path event order: the head is from the streaming endpoint listing
(src/sdd/TASKS.md lines 450-457); the tail after stage1 is elided there.
Modelled from the spec: §4.8's order for the elided tail, with title_complete
once per conversation on its first turn. -/
def councilEvents (is_first_message : Bool) : List SEvent :=
  [SEvent.stage1_start, SEvent.stage1_complete,
   SEvent.stage2_start, SEvent.stage2_complete,
   SEvent.stage3_start, SEvent.stage3_complete]
  ++ (if is_first_message then [SEvent.title_complete] else [])
  ++ [SEvent.complete]

/-- Chairman-path event order (src/sdd/TASKS.md lines 442-449). -/
def chairmanEvents : List SEvent :=
  [SEvent.chairman_start, SEvent.chairman_complete, SEvent.complete]

/-- The event sequence the streaming generator emits: the try body yields the
per-mode sequence, and an exception after k emitted events is caught by the
except clause, which yields a single error event and ends the stream
(src/sdd/TASKS.md lines 434-462). -/
def streamEvents (mode : String) (is_first_message : Bool) (failAfter : Option Nat) :
    List SEvent :=
  let happy := if mode = "chairman" then chairmanEvents else councilEvents is_first_message
  match failAfter with
  | none => happy
  | some k => happy.take k ++ [SEvent.error]

/-- Checkpoints between Gateway calls at which cancellation is observed (§4.8). -/
inductive Checkpoint where
  | afterStage1
  | afterStage2
  | beforeCommit
deriving DecidableEq

/-- The message a cancelled turn commits: a bare CancelledMessage, carrying no
stage fields. -/
def cancelledStoredMsg : StoredMsg :=
  { role := "assistant", cancelled := true }

/-- Modelled from the spec: the Message a council turn commits (the backend
cancellation handling is not under src/; only the frontend rendering of
msg.cancelled is, src/unnamed/part_000 lines 203-208).  §4.8: cancellation
observed at a checkpoint discards the in-flight stage results and commits a
CancelledMessage; otherwise the completed pipeline commits the full
CouncilMessage as one atomic unit. -/
def committedCouncilMsg (cancelledAt : Option Checkpoint) (out : CouncilOutcome) :
    StoredMsg :=
  match cancelledAt with
  | some _ => cancelledStoredMsg
  | none =>
    { role := "assistant", stage1 := some out.stage1, stage2 := some out.stage2,
      stage3 := some out.stage3 }

/-- Modelled from the spec: the Message a chairman-only turn commits under
cancellation, same policy as `committedCouncilMsg`. -/
def committedChairmanMsg (cancelledAt : Option Checkpoint) (result : ModelResponse) :
    StoredMsg :=
  match cancelledAt with
  | some _ => cancelledStoredMsg
  | none => { role := "assistant", chairman_response := some result }

/-! ## Helper lemmas -/

/-- The History Builder is a homomorphism on message-list concatenation. -/
theorem build_conversation_history_append (l₁ l₂ : List StoredMsg) :
    build_conversation_history (l₁ ++ l₂) =
      build_conversation_history l₁ ++ build_conversation_history l₂ := by
  induction l₁ with
  | nil => rfl
  | cons msg t ih =>
    by_cases h1 : msg.role = "user" <;>
      by_cases h2 : msg.role = "assistant" <;>
      cases h3 : msg.stage3 <;>
      cases h4 : msg.chairman_response <;>
      simp [build_conversation_history, h1, h2, h3, h4, ih]

/-! ## Claim theorems -/

/-- Claim C4: the History Builder turns a stored CouncilMessage into exactly one
assistant HistoryEntry carrying that message's stage3 response text (never the
per-model Stage 1 answers), and a stored ChairmanMessage into exactly one
assistant HistoryEntry carrying its response text. -/
theorem history_builder_single_entry (pre post : List StoredMsg) (msg : StoredMsg) :
    (∀ s : ModelResponse, msg.role = "assistant" → msg.stage3 = some s →
      build_conversation_history (pre ++ msg :: post) =
        build_conversation_history pre ++
          { role := "assistant", content := s.response } :: build_conversation_history post)
    ∧ (∀ c : ModelResponse, msg.role = "assistant" → msg.stage3 = none →
        msg.chairman_response = some c →
      build_conversation_history (pre ++ msg :: post) =
        build_conversation_history pre ++
          { role := "assistant", content := c.response } :: build_conversation_history post) := by
  constructor
  · intro s hrole h3
    have : pre ++ msg :: post = pre ++ [msg] ++ post := by simp
    rw [this, build_conversation_history_append, build_conversation_history_append]
    simp [build_conversation_history, hrole, h3]
  · intro c hrole h3 hc
    have : pre ++ msg :: post = pre ++ [msg] ++ post := by simp
    rw [this, build_conversation_history_append, build_conversation_history_append]
    simp [build_conversation_history, hrole, h3, hc]

/-- Concrete instance of `history_builder_single_entry`: a one-message
conversation holding a CouncilMessage with stage3 text "final". -/
theorem history_builder_single_entry_witness :
    build_conversation_history
        ([] ++ ({ role := "assistant",
                  stage1 := some [{ model := "m1", response := "a1" }],
                  stage2 := some [{ model := "m1", response := "r1" }],
                  stage3 := some { model := "chair", response := "final" } } : StoredMsg) :: []) =
      build_conversation_history [] ++
        { role := "assistant", content := "final" } :: build_conversation_history [] :=
  (history_builder_single_entry [] []
      { role := "assistant",
        stage1 := some [{ model := "m1", response := "a1" }],
        stage2 := some [{ model := "m1", response := "r1" }],
        stage3 := some { model := "chair", response := "final" } }).1
    { model := "chair", response := "final" } rfl rfl

/-- Claim C10: a stored assistant message with neither a stage3 field nor a
chairman_response field (a cancelled message, for example) contributes no
HistoryEntry at all: it is invisible in the linear history sent to models. -/
theorem history_builder_skips_fieldless_assistant
    (pre post : List StoredMsg) (msg : StoredMsg)
    (hrole : msg.role = "assistant") (h3 : msg.stage3 = none)
    (hc : msg.chairman_response = none) :
    build_conversation_history (pre ++ msg :: post) =
      build_conversation_history pre ++ build_conversation_history post := by
  have : pre ++ msg :: post = pre ++ [msg] ++ post := by simp
  rw [this, build_conversation_history_append, build_conversation_history_append]
  simp [build_conversation_history, hrole, h3, hc]

/-- Concrete instance of `history_builder_skips_fieldless_assistant`: the
CancelledMessage is invisible to the History Builder. -/
theorem history_builder_skips_fieldless_assistant_witness :
    build_conversation_history ([] ++ cancelledStoredMsg :: []) =
      build_conversation_history [] ++ build_conversation_history [] :=
  history_builder_skips_fieldless_assistant [] [] cancelledStoredMsg rfl rfl rfl

/-- Claim C1: on a first turn (zero prior messages) the selected mode is
`council` regardless of the caller-requested mode and no history is passed to
the pipeline; on a later turn the selected mode is the caller-requested mode
when one is provided (Python truthiness: a non-empty string) and `chairman`
when none is provided. -/
theorem mode_router_selection (priorMessages : List StoredMsg) (request : SendRequest) :
    (priorMessages = [] →
      sendMessageMode priorMessages request = "council" ∧
      councilHistoryArg priorMessages = none)
    ∧ (priorMessages ≠ [] → request.mode = none →
        sendMessageMode priorMessages request = "chairman")
    ∧ (∀ s : String, priorMessages ≠ [] → request.mode = some s → s ≠ "" →
        sendMessageMode priorMessages request = s) := by
  refine ⟨fun h => ?_, fun h hm => ?_, fun s h hm hs => ?_⟩
  · subst h; exact ⟨rfl, rfl⟩
  · simp [sendMessageMode, pyOr, hm, List.length_eq_zero, h]
  · simp [sendMessageMode, pyOr, hm, hs, List.length_eq_zero, h]

/-- Concrete instance of `mode_router_selection`: an empty conversation with a
caller-requested `chairman` mode still selects `council` and passes no
history. -/
theorem mode_router_selection_witness :
    sendMessageMode [] { content := "q", mode := some "chairman" } = "council" ∧
      councilHistoryArg [] = none :=
  (mode_router_selection [] { content := "q", mode := some "chairman" }).1 rfl

/-- Claim C8: the non-streaming endpoint `send_message` and the streaming
endpoint `send_message_stream` compute the same mode for every identical pair
of conversation state and request, including the forcing of `council` on a
first turn. -/
theorem send_message_modes_agree (priorMessages : List StoredMsg) (request : SendRequest) :
    sendMessageMode priorMessages request = sendMessageStreamMode priorMessages request :=
  rfl

/-- Claim C3: the Stage 2/3 history summary covers at most the last 6 messages
(3 user+assistant turns), renders each message as role plus content with
content over 500 characters truncated to its first 500 characters plus an
ellipsis marker (this is `historySummarySpec`, worded from the spec), and is
the empty string on empty history.  Only the last 6 messages influence it. -/
theorem history_summary_policy :
    (∀ h : List HistoryEntry, format_history_summary h = historySummarySpec h)
    ∧ format_history_summary [] = ""
    ∧ (∀ pre h6 : List HistoryEntry, h6.length = 6 →
        format_history_summary (pre ++ h6) = format_history_summary h6) := by
  refine ⟨fun h => ?_, rfl, fun pre h6 hlen => ?_⟩
  · simp only [format_history_summary, historySummarySpec]
    have hs : pySliceLast h (3 * 2) = lastSixSpec h := by
      simp [pySliceLast, lastSixSpec]
    rw [hs]
    congr 1
    apply List.map_congr_left
    intro msg _
    by_cases hc : msg.content.length > 500 <;> simp [renderEntrySpec, hc]
  · have h1 : pySliceLast (pre ++ h6) (3 * 2) = h6 := by
      have hd : (pre ++ h6).length - 3 * 2 = pre.length := by
        simp [List.length_append, hlen]
      simp only [pySliceLast, if_neg (by norm_num : ¬ (3 * 2 = 0)), hd]
      exact List.drop_left pre h6
    have h2 : pySliceLast h6 (3 * 2) = h6 := by
      simp [pySliceLast, hlen]
    simp only [format_history_summary, h1, h2]

/-- Concrete instance of `history_summary_policy`: a 7-message history yields
the same summary as its last 6 messages. -/
theorem history_summary_policy_witness :
    format_history_summary
        ([{ role := "user", content := "p" }] ++
          [{ role := "user", content := "a" }, { role := "assistant", content := "b" },
           { role := "user", content := "c" }, { role := "assistant", content := "d" },
           { role := "user", content := "e" }, { role := "assistant", content := "f" }]) =
      format_history_summary
        [{ role := "user", content := "a" }, { role := "assistant", content := "b" },
         { role := "user", content := "c" }, { role := "assistant", content := "d" },
         { role := "user", content := "e" }, { role := "assistant", content := "f" }] :=
  history_summary_policy.2.2 [{ role := "user", content := "p" }]
    [{ role := "user", content := "a" }, { role := "assistant", content := "b" },
     { role := "user", content := "c" }, { role := "assistant", content := "d" },
     { role := "user", content := "e" }, { role := "assistant", content := "f" }] rfl

/-- Saving under an id that is present makes a later lookup of that id return
the saved conversation. -/
theorem get_conversation_save (store : Store) (conversation_id : String)
    (c c' : Conversation) (h : get_conversation store conversation_id = some c) :
    get_conversation (save_conversation store conversation_id c') conversation_id = some c' := by
  induction store with
  | nil => simp [get_conversation] at h
  | cons p t ih =>
    by_cases hk : p.1 = conversation_id
    · simp [get_conversation, save_conversation, List.find?_cons, hk]
    · have hb : (p.1 == conversation_id) = false := by simp [hk]
      simp only [get_conversation, save_conversation, List.map_cons, List.find?_cons, hb,
        if_neg hk] at h ⊢
      exact ih h

/-- Claim C7: a turn submitted against a conversation id that storage does not
contain fails with the not-found condition, the storage state is unchanged (so
no Message — neither the user message nor any assistant message — is appended
to any conversation), and the chairman storage function likewise refuses
(ValueError) rather than appending anywhere. -/
theorem send_message_not_found (store : Store) (conversation_id : String)
    (request : SendRequest) (oracle : TurnOracle)
    (h : get_conversation store conversation_id = none) :
    send_message store conversation_id request oracle =
      (Except.error SendError.notFound, store)
    ∧ (∀ r : ModelResponse, add_chairman_message store conversation_id r = none) := by
  constructor
  · simp [send_message, h]
  · intro r
    simp [add_chairman_message, h]

/-- Concrete instance of `send_message_not_found`: empty storage rejects the
turn with not-found and stays empty. -/
theorem send_message_not_found_witness :
    send_message [] "c1" { content := "q" }
        { council := fun _ =>
            { stage1 := [], stage2 := [], stage3 := { model := "x", response := "y" },
              label_to_model := [], aggregate := [] },
          chairmanGateway := fun _ => none, title := "t" } =
      (Except.error SendError.notFound, ([] : Store)) :=
  (send_message_not_found [] "c1" { content := "q" }
      { council := fun _ =>
          { stage1 := [], stage2 := [], stage3 := { model := "x", response := "y" },
            label_to_model := [], aggregate := [] },
        chairmanGateway := fun _ => none, title := "t" } rfl).1

/-- Claim C6: when the Gateway call of the Chairman-Only Responder fails (no
response is returned), the operation does not raise: it returns a result
carrying the chairman model identifier and the fixed failure-sentinel text,
and the surrounding turn still completes (HTTP ok) with that result stored as
the turn's chairman message. -/
theorem chairman_gateway_failure_recovered :
    (∀ (q : String) (hist : List HistoryEntry) (gw : List HistoryEntry → Option String),
      (∀ msgs, gw msgs = none) →
      chat_with_chairman q hist gw =
        { model := CHAIRMAN_MODEL, response := "Failed to get response" })
    ∧ (∀ (store : Store) (conversation_id : String) (request : SendRequest)
        (oracle : TurnOracle) (conv : Conversation),
        get_conversation store conversation_id = some conv →
        conv.messages ≠ [] →
        request.mode = some "chairman" →
        (∀ msgs, oracle.chairmanGateway msgs = none) →
        ∃ store₂ : Store,
          send_message store conversation_id request oracle =
            (Except.ok (SendResult.chairmanResult
              { model := CHAIRMAN_MODEL, response := "Failed to get response" }), store₂) ∧
          get_conversation store₂ conversation_id = some
            { conv with messages := conv.messages ++
                [{ role := "user", content := request.content },
                 { role := "assistant",
                   chairman_response :=
                     some { model := CHAIRMAN_MODEL, response := "Failed to get response" } }] }) := by
  constructor
  · intro q hist gw hgw
    simp [chat_with_chairman, hgw]
  · intro store conversation_id request oracle conv hget hne hmode hgw
    have hlen : ¬ (conv.messages.length = 0) := by
      simpa [List.length_eq_zero] using hne
    have hchat : chat_with_chairman request.content
        (build_conversation_history conv.messages) oracle.chairmanGateway =
        { model := CHAIRMAN_MODEL, response := "Failed to get response" } := by
      simp [chat_with_chairman, hgw]
    have hmodeval : (if conv.messages.length = 0 then "council"
        else pyOr request.mode "chairman") = "chairman" := by
      rw [if_neg hlen]
      simp [pyOr, hmode]
    have hadd1 : add_user_message store conversation_id request.content =
        some (save_conversation store conversation_id
          { conv with messages := conv.messages ++
              [{ role := "user", content := request.content }] }) := by
      simp [add_user_message, hget]
    have hget1 : get_conversation
        (save_conversation store conversation_id
          { conv with messages := conv.messages ++
              [{ role := "user", content := request.content }] }) conversation_id =
        some { conv with messages := conv.messages ++
            [{ role := "user", content := request.content }] } :=
      get_conversation_save store conversation_id conv _ hget
    refine ⟨save_conversation
        (save_conversation store conversation_id
          { conv with messages := conv.messages ++
              [{ role := "user", content := request.content }] })
        conversation_id
        { conv with messages := (conv.messages ++
            [{ role := "user", content := request.content }]) ++
            [{ role := "assistant",
               chairman_response :=
                 some { model := CHAIRMAN_MODEL, response := "Failed to get response" } }] },
      ?_, ?_⟩
    · simp only [send_message, hget, hadd1, hmodeval, hchat]
      simp [add_chairman_message, hget1]
    · have hget2 := get_conversation_save _ conversation_id _
        { conv with messages := (conv.messages ++
            [{ role := "user", content := request.content }]) ++
            [{ role := "assistant",
               chairman_response :=
                 some { model := CHAIRMAN_MODEL, response := "Failed to get response" } }] }
        hget1
      rw [hget2]
      simp

/-- Concrete instance of `chairman_gateway_failure_recovered`: a follow-up
turn whose chairman Gateway call fails still completes and stores the
failure-sentinel chairman message. -/
theorem chairman_gateway_failure_recovered_witness :
    ∃ store₂ : Store,
      send_message [("c1", { messages := [{ role := "user", content := "hi" }] })] "c1"
          { content := "again", mode := some "chairman" }
          { council := fun _ =>
              { stage1 := [], stage2 := [], stage3 := { model := "x", response := "y" },
                label_to_model := [], aggregate := [] },
            chairmanGateway := fun _ => none, title := "t" } =
        (Except.ok (SendResult.chairmanResult
          { model := CHAIRMAN_MODEL, response := "Failed to get response" }), store₂) ∧
      get_conversation store₂ "c1" = some
        { messages := [{ role := "user", content := "hi" },
                       { role := "user", content := "again" },
                       { role := "assistant",
                         chairman_response :=
                           some { model := CHAIRMAN_MODEL,
                                  response := "Failed to get response" } }] } :=
  chairman_gateway_failure_recovered.2
    [("c1", { messages := [{ role := "user", content := "hi" }] })] "c1"
    { content := "again", mode := some "chairman" }
    { council := fun _ =>
        { stage1 := [], stage2 := [], stage3 := { model := "x", response := "y" },
          label_to_model := [], aggregate := [] },
      chairmanGateway := fun _ => none, title := "t" }
    { messages := [{ role := "user", content := "hi" }] }
    rfl (by decide) rfl (fun _ => rfl)

/-- Membership in the descending score list is boundedness. -/
theorem mem_descScores (n x : Nat) : x ∈ descScores n ↔ x ≤ n := by
  induction n with
  | zero => simp [descScores, Nat.le_zero]
  | succ m ih =>
    simp only [descScores, List.mem_cons, ih]
    omega

/-- The descending score list has no duplicates. -/
theorem descScores_nodup (n : Nat) : (descScores n).Nodup := by
  induction n with
  | zero => simp [descScores]
  | succ m ih =>
    refine List.nodup_cons.mpr ⟨?_, ih⟩
    rw [mem_descScores]
    omega

/-- The descending score list is strictly decreasing. -/
theorem descScores_sorted (n : Nat) : List.Pairwise (· > ·) (descScores n) := by
  induction n with
  | zero => simp [descScores]
  | succ m ih =>
    refine List.pairwise_cons.mpr ⟨?_, ih⟩
    intro x hx
    rw [mem_descScores] at hx
    omega

/-- Every element a bucket run produces comes from the table and carries one of
the listed scores. -/
theorem bucketed_mem (scored : List (String × Nat)) (ss : List Nat) (p : String × Nat)
    (hp : p ∈ bucketed scored ss) : p ∈ scored ∧ p.2 ∈ ss := by
  induction ss with
  | nil => simp [bucketed] at hp
  | cons s t ih =>
    simp only [bucketed, List.mem_append] at hp
    cases hp with
    | inl h =>
      have hmem := List.mem_of_mem_filter h
      have hval := List.of_mem_filter h
      simp only [beq_iff_eq] at hval
      exact ⟨hmem, by simp [hval]⟩
    | inr h =>
      obtain ⟨h1, h2⟩ := ih h
      exact ⟨h1, by simp [h2]⟩

/-- One score bucket is internally sorted (all scores equal). -/
theorem pairwise_bucket (scored : List (String × Nat)) (s : Nat) :
    List.Pairwise (fun a b : String × Nat => b.2 ≤ a.2)
      (scored.filter (fun p => p.2 == s)) := by
  induction scored with
  | nil => simp
  | cons q t ih =>
    by_cases hq : q.2 = s
    · rw [List.filter_cons_of_pos (by simp [hq])]
      refine List.pairwise_cons.mpr ⟨?_, ih⟩
      intro b hb
      have hval := List.of_mem_filter hb
      simp only [beq_iff_eq] at hval
      rw [hval, hq]
    · rw [List.filter_cons_of_neg (by simp [hq])]
      exact ih

/-- Bucket concatenation along a strictly decreasing score list is sorted by
descending score. -/
theorem bucketed_sorted (scored : List (String × Nat)) (ss : List Nat)
    (hss : List.Pairwise (· > ·) ss) :
    List.Pairwise (fun a b : String × Nat => b.2 ≤ a.2) (bucketed scored ss) := by
  induction ss with
  | nil => simp [bucketed]
  | cons s t ih =>
    obtain ⟨hhead, htail⟩ := List.pairwise_cons.mp hss
    simp only [bucketed]
    rw [List.pairwise_append]
    refine ⟨pairwise_bucket scored s, ih htail, ?_⟩
    intro a ha b hb
    have haval := List.of_mem_filter ha
    simp only [beq_iff_eq] at haval
    obtain ⟨-, hbmem⟩ := bucketed_mem scored t b hb
    have : s > b.2 := hhead b.2 hbmem
    omega

/-- An element of a list is bounded by the list's foldr-max. -/
theorem mem_le_foldr_max (l : List Nat) (x : Nat) (hx : x ∈ l) : x ≤ l.foldr max 0 := by
  induction l with
  | nil => simp at hx
  | cons a t ih =>
    rcases List.mem_cons.mp hx with h1 | h2
    · subst h1; exact le_max_left _ _
    · exact le_trans (ih h2) (le_max_right _ _)

/-- Every table row's score is bounded by the table's maximum score. -/
theorem snd_le_maxScore (scored : List (String × Nat)) (p : String × Nat)
    (hp : p ∈ scored) : p.2 ≤ maxScore scored :=
  mem_le_foldr_max (scored.map Prod.snd) p.2 (List.mem_map.mpr ⟨p, hp, rfl⟩)

/-- Filtering the bucket concatenation by one score recovers exactly that
score's bucket (table order), provided the score list has no duplicates. -/
theorem bucketed_filter_eq (scored : List (String × Nat)) (ss : List Nat) (s : Nat)
    (hnd : ss.Nodup) :
    (bucketed scored ss).filter (fun p => p.2 == s) =
      if s ∈ ss then scored.filter (fun p => p.2 == s) else [] := by
  induction ss with
  | nil => simp [bucketed]
  | cons t ts ih =>
    obtain ⟨hnotin, hnd'⟩ := List.nodup_cons.mp hnd
    simp only [bucketed, List.filter_append]
    by_cases hts : s = t
    · subst hts
      have h1 : (scored.filter (fun p => p.2 == s)).filter (fun p => p.2 == s) =
          scored.filter (fun p => p.2 == s) := by
        rw [List.filter_filter]
        apply List.filter_congr
        intro p _
        simp
      have h2 : (bucketed scored ts).filter (fun p => p.2 == s) = [] := by
        rw [ih hnd']
        simp [hnotin]
      rw [h1, h2]
      simp
    · have h1 : (scored.filter (fun p => p.2 == t)).filter (fun p => p.2 == s) = [] := by
        rw [List.filter_filter]
        apply List.filter_eq_nil_iff.mpr
        intro p _
        simp only [Bool.and_eq_true, beq_iff_eq]
        intro ⟨hps, hpt⟩
        exact hts (hps ▸ hpt ▸ rfl)
      rw [h1, ih hnd']
      simp [hts]

/-- Claim C2 counterexample: with the claim's own points formula
(points = totalLabels − position, position 0 best), the scenario submissions
[A,B,C], [B,A,C], [A,C,B] over labels [A,B,C] give totals A=8, B=6, C=4 —
not the claimed A=5, B=3, C=1 (those digits follow the different formula
totalLabels − 1 − position, under which the worst position earns 0). -/
theorem aggregate_ranking_borda_counterexample :
    scoreTable ["A", "B", "C"]
        [["A", "B", "C"], ["B", "A", "C"], ["A", "C", "B"]] ≠
      [("A", 5), ("B", 3), ("C", 1)]
    ∧ calculate_aggregate_rankings ["A", "B", "C"]
        [["A", "B", "C"], ["B", "A", "C"], ["A", "C", "B"]] ≠
      [("A", 5), ("B", 3), ("C", 1)] := by
  constructor
  · decide
  · decide

/-- Claim C2 (amended): the aggregate ranking gives each label
(totalLabels − position) points per submission (position 0 best), sums them
per label over the valid submissions, and orders the models by total score
descending with ties broken by Stage 1 presentation order.  For the
3-submission scenario [A,B,C], [B,A,C], [A,C,B] over [A,B,C] the totals are
A=8, B=6, C=4 with aggregate order A, B, C.  The general conjuncts: the
output is always sorted by descending score, and restricting the output to
any fixed score yields exactly the score table's (= Stage 1) order — the
deterministic tie-break. -/
theorem aggregate_ranking_borda :
    scoreTable ["A", "B", "C"]
        [["A", "B", "C"], ["B", "A", "C"], ["A", "C", "B"]] =
      [("A", 8), ("B", 6), ("C", 4)]
    ∧ calculate_aggregate_rankings ["A", "B", "C"]
        [["A", "B", "C"], ["B", "A", "C"], ["A", "C", "B"]] =
      [("A", 8), ("B", 6), ("C", 4)]
    ∧ (∀ (labels : List String) (submissions : List (List String)),
        List.Pairwise (fun a b : String × Nat => b.2 ≤ a.2)
          (calculate_aggregate_rankings labels submissions))
    ∧ (∀ (labels : List String) (submissions : List (List String)) (s : Nat),
        (calculate_aggregate_rankings labels submissions).filter (fun p => p.2 == s) =
          (scoreTable labels submissions).filter (fun p => p.2 == s)) := by
  refine ⟨by decide, by decide, fun labels submissions => ?_, fun labels submissions s => ?_⟩
  · exact bucketed_sorted _ _ (descScores_sorted _)
  · simp only [calculate_aggregate_rankings]
    rw [bucketed_filter_eq _ _ _ (descScores_nodup _)]
    by_cases hs : s ∈ descScores (maxScore (scoreTable labels submissions))
    · simp [hs]
    · rw [if_neg hs]
      symm
      apply List.filter_eq_nil_iff.mpr
      intro p hp
      simp only [beq_iff_eq]
      intro hps
      apply hs
      rw [mem_descScores, ← hps]
      exact snd_le_maxScore _ p hp

/-- Claim C5: a streamed turn's event sequence respects the strict per-path
order — chairman path chairman_start, chairman_complete, complete; council
path stage1_start through stage3_complete, optional title_complete on the
conversation's first turn, then complete — and when an error event is emitted
it terminates the stream, so no further stage events follow it; every failing
run is a prefix of the happy path followed by the single error event. -/
theorem streaming_event_order :
    (∀ firstTurn : Bool, streamEvents "chairman" firstTurn none =
      [SEvent.chairman_start, SEvent.chairman_complete, SEvent.complete])
    ∧ streamEvents "council" true none =
      [SEvent.stage1_start, SEvent.stage1_complete, SEvent.stage2_start,
       SEvent.stage2_complete, SEvent.stage3_start, SEvent.stage3_complete,
       SEvent.title_complete, SEvent.complete]
    ∧ streamEvents "council" false none =
      [SEvent.stage1_start, SEvent.stage1_complete, SEvent.stage2_start,
       SEvent.stage2_complete, SEvent.stage3_start, SEvent.stage3_complete,
       SEvent.complete]
    ∧ (∀ (mode : String) (firstTurn : Bool) (k : Nat) (l₁ l₂ : List SEvent),
        streamEvents mode firstTurn (some k) = l₁ ++ SEvent.error :: l₂ → l₂ = [])
    ∧ (∀ (mode : String) (firstTurn : Bool) (k : Nat), ∃ n : Nat,
        streamEvents mode firstTurn (some k) =
          (streamEvents mode firstTurn none).take n ++ [SEvent.error]) := by
  refine ⟨fun b => rfl, rfl, rfl, ?_, fun mode firstTurn k => ⟨k, rfl⟩⟩
  intro mode firstTurn k l₁ l₂ h
  have herr : SEvent.error ∉
      (if mode = "chairman" then chairmanEvents else councilEvents firstTurn) := by
    split
    · decide
    · cases firstTurn <;> decide
  simp only [streamEvents] at h
  rcases l₂.eq_nil_or_concat with rfl | ⟨l₂x, a, rfl⟩
  · rfl
  · exfalso
    rw [List.concat_eq_append] at h
    rw [show l₁ ++ SEvent.error :: (l₂x ++ [a]) = (l₁ ++ SEvent.error :: l₂x) ++ [a]
      by simp] at h
    obtain ⟨h1, -⟩ := List.append_inj' h rfl
    have hmem : SEvent.error ∈
        (if mode = "chairman" then chairmanEvents else councilEvents firstTurn).take k := by
      rw [h1]
      simp
    exact herr (List.mem_of_mem_take hmem)

/-- Concrete instance of `streaming_event_order`: a council stream failing
after two events has nothing after its error event. -/
theorem streaming_event_order_witness : ([] : List SEvent) = [] :=
  streaming_event_order.2.2.2.1 "council" false 2
    [SEvent.stage1_start, SEvent.stage1_complete] [] (by decide)

/-- Claim C9: a turn whose pipeline is cancelled commits a CancelledMessage —
for both the council and the chairman path and at every checkpoint — and that
committed message carries no stage1/stage2/stage3/chairman_response fields, so
no partial CouncilMessage or ChairmanMessage is ever persisted for the turn. -/
theorem cancellation_commits_cancelled_message :
    (∀ (c : Checkpoint) (out : CouncilOutcome),
      committedCouncilMsg (some c) out = cancelledStoredMsg)
    ∧ (∀ (c : Checkpoint) (r : ModelResponse),
      committedChairmanMsg (some c) r = cancelledStoredMsg)
    ∧ cancelledStoredMsg.stage1 = none
    ∧ cancelledStoredMsg.stage2 = none
    ∧ cancelledStoredMsg.stage3 = none
    ∧ cancelledStoredMsg.chairman_response = none
    ∧ cancelledStoredMsg.cancelled = true :=
  ⟨fun _ _ => rfl, fun _ _ => rfl, rfl, rfl, rfl, rfl, rfl⟩
